import Mathlib

/-!
Verification of the OpenScope Credit-Assignment analysis utilities.

This file gives a shallow embedding, in Lean 4, of the pure computational
core of several functions of the repository (session query utilities,
string formatting, pupil and running-velocity processing, windowing
preconditions, and parameter-bundle handling), together with theorems
settling the frozen specification claims about them.

Conventions of the embedding:
life-cycle errors raised by the Python code (ValueError, TypeError,
KeyError, UnboundLocalError, RuntimeError, IndexError) are represented by
an explicit error type `PyErr`, and fallible functions return `Res`,
a result monad.  Python floats are modelled as exact rationals.
Python strings are modelled as `String` or as `List Char` where the
source manipulates them character-wise.
-/

namespace OpenScopeCA

/-- Kinds of Python exceptions distinguished by the embedding.  The
`valueError` constructor covers both plain ValueError and the InvalidInput
idiom of the repository (`accepted_values_error`). -/
inductive PyErr where
  | valueError (msg : String)
  | typeError (msg : String)
  | keyError (msg : String)
  | unboundLocalError (msg : String)
  | runtimeError (msg : String)
  | indexError (msg : String)
  deriving DecidableEq, Repr

/-- Result of a Python computation: a value or a raised exception. -/
inductive Res (α : Type) where
  | ok (a : α) : Res α
  | err (e : PyErr) : Res α
  deriving DecidableEq, Repr

instance : Monad Res where
  pure := .ok
  bind m f := match m with
    | .ok a => f a
    | .err e => .err e

@[simp]
theorem Res.ok_bind {α β : Type} (a : α) (f : α → Res β) : (Res.ok a >>= f) = f a := rfl

@[simp]
theorem Res.err_bind {α β : Type} (e : PyErr) (f : α → Res β) :
    (Res.err e >>= f : Res β) = Res.err e := rfl

@[simp]
theorem Res.pure_eq {α : Type} (a : α) : (pure a : Res α) = Res.ok a := rfl

/-- Boolean test that `t` is a prefix of the second list (Python string
comparison, used to implement the `in` containment operator). -/
def isPrefixTok : List Char → List Char → Bool
  | [], _ => true
  | _ :: _, [] => false
  | c :: cs, d :: ds => if c = d then isPrefixTok cs ds else false

/-- Boolean substring containment: the embedding of the Python expression
`t in s` on strings (`t` is `tok`, `s` is the second argument). -/
def containsTok (tok : List Char) : List Char → Bool
  | [] => decide (tok = [])
  | c :: cs => isPrefixTok tok (c :: cs) || containsTok tok cs

/-- Embedding of the Python expression `sub in hay` for `String` values. -/
def strContains (hay sub : String) : Bool := containsTok sub.toList hay.toList

/-- Modelled from the spec: `gen_util.accepted_values_error` (generic
utility layer, not under src/) raises an InvalidInput error whose message
enumerates the allowed values; it is the single validation idiom of the
repository for one-of-a-fixed-enum arguments. -/
def accepted_values_error (varname value : String) (accepted : List String) : PyErr :=
  .valueError (varname ++ " value " ++ value ++ " unsupported. Must be in: "
    ++ String.intercalate ", " accepted)

/-! ### depth_vals (src/sess_util/sess_gen_util.py, lines 26-69) -/

/-- Return type of `depth_vals`: either the literal Python string
specifying any depth, or a list of depth values. -/
inductive Depths where
  | anyStr
  | vals (l : List ℤ)
  deriving DecidableEq, Repr

/-- The `depth_dict` literal of `depth_vals`
(src/sess_util/sess_gen_util.py, lines 41-45); `none` models a KeyError on
lookup of an absent key. -/
def depth_dict : String → Option (List ℤ)
  | "L23_dend" => some [50, 75]
  | "L23_soma" => some [175]
  | "L5_dend" => some [20]
  | "L5_soma" => some [375]
  | _ => none

/-- The `all_layers` literal of `depth_vals`. -/
def all_layers : List String := ["dend", "soma"]

/-- The `all_lines` literal of `depth_vals`. -/
def all_lines : List String := ["L23", "L5"]

/-- Inner loop of `depth_vals` (src/sess_util/sess_gen_util.py, lines
62-66): for a fixed layer, iterates over the line values.  Note that the
source checks `layer not in all_layers` (not `line not in all_lines`)
before raising the accepted-values error for `line`, exactly as written at
line 63 of the source. -/
def depth_vals_lines (layer : String) (lines : List String) (acc : List ℤ) :
    Res (List ℤ) :=
  lines.foldlM (fun acc line =>
    if ¬ all_layers.contains layer then
      .err (accepted_values_error "line" line all_lines)
    else
      match depth_dict (line ++ "_" ++ layer) with
      | some d => .ok (acc ++ d)
      | none => .err (.keyError (line ++ "_" ++ layer))) acc

/-- Embedding of `depth_vals(layer, line)`
(src/sess_util/sess_gen_util.py, lines 26-69). -/
def depth_vals (layer line : String) : Res Depths :=
  if layer = "any" ∧ line = "any" then .ok .anyStr
  else
    let layers := if layer = "any" then all_layers else [layer]
    let lines := if line = "any" then all_lines else [line]
    (layers.foldlM (fun acc layer =>
      if ¬ all_layers.contains layer then
        .err (accepted_values_error "layer" layer all_layers)
      else depth_vals_lines layer lines acc) []) >>= fun l => .ok (Depths.vals l)

/-! ### get_ran_s (src/analysis/pup_analys.py, lines 25-91) -/

/-- Python value accepted for the `ran_s` argument of `get_ran_s`:
None, a number, a list, or a dict. -/
inductive RanSArg where
  | pynone
  | num (v : ℚ)
  | list (l : List ℚ)
  | dict (d : List (String × ℚ))
  deriving DecidableEq, Repr

/-- Dynamic value of the local variable `vals` in `get_ran_s`: the source
assigns it either the float `3.5` (when `ran_s` is None) or a two-element
list. -/
inductive Vals where
  | scalar (v : ℚ)
  | pair (a b : ℚ)
  deriving DecidableEq, Repr

/-- Python subscript `vals[i]`: subscripting a float raises TypeError,
which is exactly what happens in `get_ran_s` when `ran_s` is None. -/
def Vals.sub (v : Vals) (i : ℕ) : Res ℚ :=
  match v with
  | .scalar _ => .err (.typeError "float object is not subscriptable")
  | .pair a b => if i = 0 then .ok a else .ok b

/-- Key-list computation of `get_ran_s`
(src/analysis/pup_analys.py, lines 60-67).  The `elif` of the source is
attached to the second `if`, so an unrecognized datatype is only caught
when it is not in both/roi. -/
def get_ran_s_keys (datatype : String) : Res (List String) :=
  let keys := ["pup_pre", "pup_post"]
  let keys := if datatype = "both" ∨ datatype = "roi"
    then keys ++ ["roi_pre", "roi_post"] else keys
  if datatype = "both" ∨ datatype = "run" then .ok (keys ++ ["run_pre", "run_post"])
  else if ¬ (datatype = "both" ∨ datatype = "run" ∨ datatype = "roi") then
    .err (accepted_values_error "datatype" datatype ["both", "roi", "run"])
  else .ok keys

/-- The `vals` assignment of `get_ran_s`
(src/analysis/pup_analys.py, lines 76-83): None gives the bare float 3.5
(not a list), a length-2 list is copied, any other number is duplicated
into a pair. -/
def get_ran_s_vals : RanSArg → Res Vals
  | .pynone => .ok (.scalar 3.5)
  | .list l =>
      if l.length = 2 then .ok (.pair (l.getD 0 0) (l.getD 1 0))
      else .err (.valueError "If ran_s is a list, must be of length 2.")
  | .num v => .ok (.pair v v)
  | .dict _ => .err (.typeError "unreachable: dict handled by caller")

/-- Embedding of `get_ran_s(ran_s, datatype)`
(src/analysis/pup_analys.py, lines 25-91).  The returned dict is modelled
as an association list in insertion order. -/
def get_ran_s (ran_s : RanSArg) (datatype : String) : Res (List (String × ℚ)) := do
  let keys ← get_ran_s_keys datatype
  match ran_s with
  | .dict d =>
      let missing := keys.filter (fun k => ¬ d.any (fun p => p.1 = k))
      if missing.length > 0 then
        .err (.valueError ("ran_s is missing keys: " ++ String.intercalate ", " missing))
      else .ok d
  | other => do
      let vals ← get_ran_s_vals other
      keys.foldlM (fun acc key =>
        if strContains key "pre" then do
          let v ← vals.sub 0
          pure (acc ++ [(key, v)])
        else if strContains key "post" then do
          let v ← vals.sub 1
          pure (acc ++ [(key, v)])
        else pure acc) []

/-! ### Parameter bundles and run_mag_change multcomp handling
(src/sess_util/sess_ntuple_util.py and the two generations of
gen_analys.run_mag_change) -/

/-- Dynamic Python value stored in a parameter-bundle field. -/
inductive PyVal where
  | int (n : ℤ)
  | str (s : String)
  | bool (b : Bool)
  | float (q : ℚ)
  deriving DecidableEq, Repr

/-- Python truthiness of a `PyVal` (used by `if permpar.multcomp:`). -/
def PyVal.truthy : PyVal → Bool
  | .int n => decide (n ≠ 0)
  | .str s => decide (s ≠ "")
  | .bool b => b
  | .float q => decide (q ≠ 0)

/-- The PermPar named tuple
(src/sess_util/sess_ntuple_util.py, lines 169-193). -/
structure PermPar where
  n_perms : PyVal
  p_val : PyVal
  tails : PyVal
  multcomp : PyVal
  deriving DecidableEq, Repr

/-- Embedding of `init_permpar`
(src/sess_util/sess_ntuple_util.py, lines 169-193): builds a PermPar from
its four field values. -/
def init_permpar (n_perms p_val tails multcomp : PyVal) : PermPar :=
  ⟨n_perms, p_val, tails, multcomp⟩

/-- Embedding of `get_modif_ntuple(ntuple, keys, key_vals)`
(src/sess_util/sess_ntuple_util.py, lines 439-483), specialized to a
PermPar bundle and a single key: converts to a field mapping, replaces the
named field (ValueError if the key is not a field), and re-invokes
`init_permpar`; the input bundle is left untouched (namedtuples are
immutable). -/
def get_modif_permpar (p : PermPar) (key : String) (val : PyVal) : Res PermPar :=
  if key = "n_perms" then .ok (init_permpar val p.p_val p.tails p.multcomp)
  else if key = "p_val" then .ok (init_permpar p.n_perms val p.tails p.multcomp)
  else if key = "tails" then .ok (init_permpar p.n_perms p.p_val val p.multcomp)
  else if key = "multcomp" then .ok (init_permpar p.n_perms p.p_val p.tails val)
  else .err (.valueError (key ++ " not in ntuple dictionary keys."))

/-- Embedding of the permpar-update step of the legacy
`run_mag_change` (src/analysis/gen_analys.py, lines 378-381): if
`permpar.multcomp` is truthy, replace permpar by a copy with multcomp set
to the boolean False (multiple comparisons not implemented), else leave it
unchanged. -/
def run_mag_change_permpar_legacy (permpar : PermPar) : Res PermPar :=
  if permpar.multcomp.truthy then get_modif_permpar permpar "multcomp" (.bool false)
  else .ok permpar

/-- Embedding of the permpar-update step of the later-generation
`run_mag_change` (src/extra/extra_analysis/gen_analys.py, lines 403-406):
if `permpar.multcomp` is truthy, replace permpar by a copy with multcomp
set to `len(sessions)`, else leave it unchanged. -/
def run_mag_change_permpar_openscope (n_sessions : ℕ) (permpar : PermPar) : Res PermPar :=
  if permpar.multcomp.truthy then
    get_modif_permpar permpar "multcomp" (.int n_sessions)
  else .ok permpar

/-! ### ROI / running-velocity scaling in sess_data_util
(src/sess_util/sess_data_util.py) -/

/-- Embedding of `np.mean` on a 1D array of rationals. -/
def np_mean (l : List ℚ) : ℚ := l.sum / l.length

/-- Embedding of `np.var` (population variance), so that the `np.std`
used in `get_roi_data` and `get_stim_data` is characterized by
`std ≥ 0 ∧ std ^ 2 = np_var l`. -/
def np_var (l : List ℚ) : ℚ := np_mean (l.map (fun x => (x - np_mean l) ^ 2))

/-- The scaling actually applied to one retrieved ROI-trace value in
`get_roi_data` (src/sess_util/sess_data_util.py, lines 225-226):
`traces = 2. * (traces - roi_means) / roi_stds - 1.`. -/
def scale_roi_val (x mean std : ℚ) : ℚ := 2 * (x - mean) / std - 1

/-- Per-ROI application of `scale_roi_val` to a retrieved trace. -/
def scale_roi_trace (trace : List ℚ) (mean std : ℚ) : List ℚ :=
  trace.map (fun x => scale_roi_val x mean std)

/-- The scaling actually applied to the retrieved running-velocity values
in `get_stim_data` (src/sess_util/sess_data_util.py, line 121):
`run_velocity = 2. * (run_velocity - run_mean) / run_std - 1.`. -/
def scale_run_val (x run_mean run_std : ℚ) : ℚ := 2 * (x - run_mean) / run_std - 1

/-! ### String-fragment formatting (src/util/str_util.py) -/

/-- Embedding of `shuff_par_str(shuffle, type_str)`
(src/util/str_util.py, lines 20-48).  When `shuffle` is falsy the
function returns the empty string without ever looking at `type_str`. -/
def shuff_par_str (shuffle : Bool) (type_str : String) : Res String :=
  if shuffle then
    if type_str = "print" then .ok ", shuffled"
    else if type_str = "file" then .ok "_shuffled"
    else if type_str = "labels" then .ok " (shuffled labels)"
    else .err (accepted_values_error "type_str" type_str ["print", "file"])
  else .ok ""

/-- Embedding of `norm_par_str(norm, type_str)`
(src/util/str_util.py, lines 52-78). -/
def norm_par_str (norm : Bool) (type_str : String) : Res String :=
  if norm then
    if type_str = "print" then .ok ", norm"
    else if type_str = "file" then .ok "_norm"
    else .err (accepted_values_error "type_str" type_str ["print", "file"])
  else .ok ""

/-- Embedding of `fluor_par_str(raw, type_str)`
(src/util/str_util.py, lines 81-115). -/
def fluor_par_str (raw : Bool) (type_str : String) : Res String :=
  if raw then
    if type_str = "print" then .ok "raw fluorescence intensity"
    else if type_str = "file" then .ok "raw"
    else .err (accepted_values_error "type_str" type_str ["print", "file"])
  else
    if type_str = "print" then .ok "dF/F"
    else if type_str = "file" then .ok "dff"
    else .err (accepted_values_error "type_str" type_str ["print", "file"])

/-- Embedding of `op_par_str(plot_vals, op, area, str_type)`
(src/util/str_util.py, lines 153-189).  For a recognized `plot_vals`, an
unrecognized `str_type` leaves the local `op_str` unassigned, so the final
`return op_str` raises UnboundLocalError; the accepted-values error is only
raised for an unrecognized `plot_vals`. -/
def op_par_str (plot_vals op : String) (area : Bool) (str_type : String) : Res String :=
  let area_str := if area then " area" else ""
  if plot_vals = "diff" then
    if str_type = "print" then .ok (area_str ++ " in dF/F" ++ op ++ " for surp v nosurp")
    else if str_type = "file" then .ok plot_vals
    else .err (.unboundLocalError "op_str")
  else if plot_vals = "surp" ∨ plot_vals = "nosurp" then
    if str_type = "print" then .ok ("dF/F" ++ area_str ++ " for " ++ plot_vals)
    else if str_type = "file" then .ok plot_vals
    else .err (.unboundLocalError "op_str")
  else .err (accepted_values_error "plot_vals" plot_vals ["diff", "surp", "nosurp"])

/-! ### Pupil-data h5 file-name synthesis and validation
(src/sess_util/sess_file_util.py, lines 857-894) -/

/-- List-of-characters split on a separator character, the embedding of
Python str.split for a single-character separator (empty pieces are
kept). -/
def splitOnChar (sep : Char) : List Char → List (List Char)
  | [] => [[]]
  | x :: xs =>
    match splitOnChar sep xs with
    | [] => [[]]
    | r :: rs => if x = sep then [] :: r :: rs else (x :: r) :: rs

/-- Index of the last occurrence of a character, the embedding of Python
str.rfind. -/
def rfindChar (c : Char) (l : List Char) : Option ℕ :=
  (List.range l.length).foldl (fun acc i => if l.getD i ' ' = c then some i else acc) none

/-- Embedding of pathlib stem/suffix computation on a file name:
the suffix starts at the last dot provided that dot is neither the first
nor the last character; otherwise the suffix is empty and the stem is the
whole name. -/
def path_suffix_stem (name : List Char) : List Char × List Char :=
  match rfindChar '.' name with
  | some i =>
      if 0 < i ∧ i < name.length - 1 then (name.take i, name.drop i) else (name, [])
  | none => (name, [])

/-- Embedding of `get_check_pupil_data_h5_name(pup_h5_name, sessid,
mouseid, date)` (src/sess_util/sess_file_util.py, lines 857-894).
With a name supplied, validates extension, part count, the three leading
parts (against the given component, or against the expected length 9/6/8
when the component is None) and the trailing pupil_data_df parts, raising
RuntimeError on any mismatch.  With no name supplied, raises ValueError if
any component is missing and otherwise synthesizes the name with no length
checks at all. -/
def get_check_pupil_data_h5_name (pup_h5_name sessid mouseid date : Option String) :
    Res String :=
  match pup_h5_name with
  | some nm0 =>
      let nameL := (splitOnChar '/' nm0.toList).getLastD []
      let st := path_suffix_stem nameL
      if st.2 ≠ ".h5".toList then
        .err (.valueError "pup_h5_name should have extension .h5.")
      else
        let path_parts := splitOnChar '_' st.1
        let e1 : Bool := decide (path_parts.length ≠ 6)
        do
          let e2 ← [((0 : ℕ), sessid, (9 : ℕ)), (1, mouseid, 6), (2, date, 8)].foldlM
            (fun err pe =>
              match path_parts.get? pe.1 with
              | none => Res.err (.indexError "list index out of range")
              | some pp =>
                  match pe.2.1 with
                  | some v => Res.ok (err || decide (pp ≠ v.toList))
                  | none => Res.ok (err || decide (pp.length ≠ pe.2.2))) e1
          let e3 := e2 || decide ((path_parts.drop (path_parts.length - 3)) ≠
            ["pupil".toList, "data".toList, "df".toList])
          if e3 then
            .err (.runtimeError "Expected pup_h5_name to have form sessid9_mouseid6_date8_pupil_data_df.h5")
          else .ok (String.mk nameL)
  | none =>
      match sessid, mouseid, date with
      | some s, some m, some d => .ok (s ++ "_" ++ m ++ "_" ++ d ++ "_pupil_data_df.h5")
      | _, _, _ =>
          .err (.valueError "If h5_name is None, must provide sessid, mouseid and date.")

/-! ### Windowing preconditions of get_stim_data / get_roi_data
(src/sess_util/sess_data_util.py, lines 26-141 and 144-248) -/

/-- Modelled from the spec: number of sliding windows produced by
`data_util.window_2d` (the data_util module is not under src/) for a
sequence of `seq_len` frames, windows of `win_leng` frames and the given
step; zero windows when the window exceeds the sequence. -/
def n_windows (seq_len win_leng step_size : ℕ) : ℕ :=
  if win_leng ≤ seq_len then (seq_len - win_leng) / step_size + 1 else 0

/-- Modelled from the spec: `data_util.window_2d` slides a fixed-length
window over a sequence at the given step, returning the list of
windows. -/
def window_2d (xs : List ℚ) (win_leng step_size : ℕ) : List (List ℚ) :=
  (List.range (n_windows xs.length win_leng step_size)).map
    (fun i => (xs.drop (i * step_size)).take win_leng)

/-- Modelled from the spec: the per-call session data visible to
`get_stim_data` / `get_roi_data` — the two-photon frame rate and the
per-reference-segment retrieved sequences (the `Session`/`Stim` data
access layer is outside src/ and is specified by contract: each retrieved
sequence covers the `pre`..`post` span around its reference frame). -/
structure SessData where
  twop_fps : ℚ
  seqs : List (List ℚ)
  deriving DecidableEq, Repr

/-- Embedding of `get_stim_data(sess, stimtype, win_leng_s, ...)`
(src/sess_util/sess_data_util.py, lines 27-141): the window-length guard
at lines 89-90 is the first executable statement and raises ValueError
before any session data is touched; the subsequent retrieval and
windowing (win_leng = floor(win_leng_s * twop_fps), one `window_2d` call
per retrieved sequence) is modelled from the spec. -/
def get_stim_data (sess : SessData) (win_leng_s pre post : ℚ) (step_size : ℕ) :
    Res (List (List (List ℚ))) :=
  if win_leng_s > pre + post then
    .err (.valueError "Windows cannot be longer than the sequences.")
  else
    .ok (sess.seqs.map (fun s =>
      window_2d s (Nat.floor (win_leng_s * sess.twop_fps)) step_size))

/-- Embedding of `get_roi_data(sess, stimtype, win_leng_s, ...)`
(src/sess_util/sess_data_util.py, lines 144-248): identical window-length
guard at lines 203-204, raised before any session data is touched, then
per-sequence windowing with win_leng = floor(twop_fps * win_leng_s). -/
def get_roi_data (sess : SessData) (win_leng_s pre post : ℚ) (step_size : ℕ) :
    Res (List (List (List ℚ))) :=
  if win_leng_s > pre + post then
    .err (.valueError "Windows cannot be longer than the sequences.")
  else
    .ok (sess.seqs.map (fun s =>
      window_2d s (Nat.floor (sess.twop_fps * win_leng_s)) step_size))

/-! ### Running-velocity computation
(src/sess_util/sess_sync_util.py, lines 557-623) -/

/-- A NaN-able rational: `none` models the float NaN. -/
abbrev RVal := Option ℚ

/-- The allensdk conversion helper used by `calculate_running_velocity`:
degrees to radians.  `piApprox` stands for the float value of pi used by
the library; theorems only assume it lies strictly between 3 and 4. -/
def degrees_to_radians (piApprox deg : ℚ) : ℚ := deg * piApprox / 180

/-- The allensdk conversion helper: angular velocity times radius. -/
def angular_to_linear_velocity (angular radius : ℚ) : ℚ := angular * radius

/-- Embedding of `np.isclose(x, 0.0)` with the NumPy defaults
(rtol 1e-5, atol 1e-8): against a zero reference the relative term
vanishes, leaving the absolute-tolerance test. -/
def np_isclose_zero (x : ℚ) : Bool := decide (|x| ≤ 1 / 100000000)

/-- Insertion of a value into a sorted list (helper for the median). -/
def insertSorted (x : ℚ) : List ℚ → List ℚ
  | [] => [x]
  | y :: ys => if x ≤ y then x :: y :: ys else y :: insertSorted x ys

/-- Insertion sort of a list of rationals (helper for the median). -/
def sortQ (l : List ℚ) : List ℚ := l.foldr insertSorted []

/-- Embedding of `np.median`: middle value of the sorted list, or the
mean of the two middle values for an even length. -/
def np_median (l : List ℚ) : ℚ :=
  let s := sortQ l
  if l.length % 2 = 1 then s.getD (l.length / 2) 0
  else (s.getD (l.length / 2 - 1) 0 + s.getD (l.length / 2) 0) / 2

/-- The pre-filter part of `calculate_running_velocity`
(src/sess_util/sess_sync_util.py, lines 595-615): drops the first raw
reading (the first frame interval has no known start time), converts to
radians, divides by the per-frame (or median) duration, multiplies by
`radius = wheel_radius * subject_position`, and sets the velocity to NaN
wherever `np.isclose(raw_running_rad, 0.0)`.  The embedding uses total
rational division, so it is faithful on inputs whose frame durations are
nonzero; the theorems assume strictly increasing timestamps. -/
def linear_velocity_prefilter (piApprox : ℚ) (stim_fr_timestamps raw_running_deg : List ℚ)
    (wheel_radius subject_position : ℚ) (use_median_duration : Bool) : List RVal :=
  let raw_running_rad := (raw_running_deg.drop 1).map (degrees_to_radians piApprox)
  let durations :=
    List.zipWith (fun e s => e - s) (stim_fr_timestamps.drop 1) stim_fr_timestamps
  let angular_velocity :=
    if use_median_duration then raw_running_rad.map (fun r => r / np_median durations)
    else List.zipWith (fun r d => r / d) raw_running_rad durations
  let radius := wheel_radius * subject_position
  let linear_velocity :=
    angular_velocity.map (fun a => angular_to_linear_velocity a radius)
  List.zipWith (fun r v => if np_isclose_zero r then none else some v)
    raw_running_rad linear_velocity

/-- Embedding of the pandas centered rolling median applied at
src/sess_util/sess_sync_util.py lines 617-621
(`rolling(window=filter_ks, min_periods=ceil((filter_ks+1)/2),
center=True).median()`): one output per input position, NaN when fewer
than `min_periods` non-NaN values fall in the centered window.  Only its
length-preservation is relied on by the theorems. -/
def rolling_median_centered (ks : ℕ) (xs : List RVal) : List RVal :=
  let n := xs.length
  let min_vals := (ks + 2) / 2
  (List.range n).map (fun (i : ℕ) =>
    let vals := (List.range ks).filterMap (fun (j : ℕ) =>
      let idx : ℤ := (i : ℤ) + (j : ℤ) - ((ks : ℤ) - 1 - (ks : ℤ) / 2)
      if 0 ≤ idx ∧ idx < (n : ℤ) then xs.getD idx.toNat none else none)
    if min_vals ≤ vals.length then some (np_median vals) else none)

/-- Embedding of `calculate_running_velocity(stim_fr_timestamps,
raw_running_deg, wheel_radius, subject_position, use_median_duration,
filter_ks)` (src/sess_util/sess_sync_util.py, lines 557-623). -/
def calculate_running_velocity (piApprox : ℚ) (stim_fr_timestamps raw_running_deg : List ℚ)
    (wheel_radius subject_position : ℚ) (use_median_duration : Bool)
    (filter_ks : ℕ) : List RVal :=
  let lv := linear_velocity_prefilter piApprox stim_fr_timestamps raw_running_deg
    wheel_radius subject_position use_median_duration
  if filter_ks ≠ 0 then rolling_median_centered filter_ks lv else lv

/-! ### Pupil blink removal
(src/sess_util/sess_pupil_util.py, _diam_no_blink, lines 45-88) -/

/-- Embedding of `np.diff` on a 1D array. -/
def np_diff (l : List ℚ) : List ℚ := List.zipWith (fun a b => a - b) (l.drop 1) l

/-- The flagged-index computation of `_diam_no_blink`
(src/sess_util/sess_pupil_util.py, lines 66-68):
`diam_diff = np.append(0, np.diff(diam))` followed by
`diam_thr = np.where(np.abs(diam_diff) > thr)[0]`. -/
def diam_thr_of (diam : List ℚ) (thr : ℚ) : List ℕ :=
  let diam_diff := (0 : ℚ) :: np_diff diam
  ((diam_diff.enum).filter (fun p => decide (|p.2| > thr))).map (fun p => p.1)

/-- The flagged-index gap computation of `_diam_no_blink`
(src/sess_util/sess_pupil_util.py, line 69):
`diam_thr_diff = np.append(1, np.diff(diam_thr))`. -/
def diam_thr_diff_of (diam_thr : List ℕ) : List ℤ :=
  1 :: List.zipWith (fun (a b : ℕ) => (a : ℤ) - (b : ℤ)) (diam_thr.drop 1) diam_thr

/-- The NumPy slice assignment `nan_diam[left:right + 1] = np.nan`. -/
def set_span_nan (xs : List RVal) (left right : ℕ) : List RVal :=
  (List.range xs.length).map (fun (i : ℕ) =>
    if left ≤ i ∧ i ≤ right then none else xs.getD i none)

/-- The `while searching` loop of `_diam_no_blink`
(src/sess_util/sess_pupil_util.py, lines 74-86), with an explicit fuel
argument (the loop index i strictly increases, so `diam_thr.length + 1`
fuel always suffices) and the value of the local variable `right_i` as an
`Option` (it is unassigned before the first iteration, and referencing it
unassigned — which the source does via `i = right_i + 1` when the very
first iteration takes the no-further-gap branch — raises
UnboundLocalError before the NaN span is written). -/
def blink_loop (diam_thr : List ℕ) (diam_thr_diff : List ℤ) :
    ℕ → ℕ → Option ℕ → List RVal → Res (List RVal)
  | 0, _, _, _ => .err (.runtimeError "fuel exhausted: unreachable")
  | fuel + 1, i, prev_right_i, nan_diam =>
    match diam_thr.get? i with
    | none => .err (.indexError "list index out of range")
    | some left =>
      let w := (List.range (diam_thr_diff.length - (i + 1))).filter
        (fun (j : ℕ) => decide (diam_thr_diff.getD (j + i + 1) 0 > 10))
      match w.head? with
      | some j0 =>
          let right_i := j0 + i
          match diam_thr.get? right_i with
          | none => .err (.indexError "list index out of range")
          | some right =>
              blink_loop diam_thr diam_thr_diff fuel (right_i + 1) (some right_i)
                (set_span_nan nan_diam left right)
      | none =>
          match diam_thr.getLast? with
          | none => .err (.indexError "list index out of range")
          | some right =>
              match prev_right_i with
              | none => .err (.unboundLocalError "right_i")
              | some _ => .ok (set_span_nan nan_diam left right)

/-- Embedding of `_diam_no_blink(diam, thr)`
(src/sess_util/sess_pupil_util.py, lines 45-88): flags indices whose
absolute first difference exceeds thr, returns a copy unchanged when none
is flagged, and otherwise runs the span-merging loop. -/
def diam_no_blink (diam : List ℚ) (thr : ℚ) : Res (List RVal) :=
  let diam_thr := diam_thr_of diam thr
  if diam_thr.length = 0 then .ok (diam.map some)
  else blink_loop diam_thr (diam_thr_diff_of diam_thr) (diam_thr.length + 1) 0 none
    (diam.map some)

/-! ### Analysis-directory name round trip
(src/sess_util/sess_gen_util.py: get_analysdir lines 846-898,
get_params_from_str lines 902-989) -/

/-- The decimal digit character for a value below ten (Python str of a
single digit). -/
def digitChar (n : ℕ) : Char := Char.ofNat (48 + n)

/-- Decimal representation of a natural number, as produced by the Python
str() of a nonnegative int. -/
def natToChars (n : ℕ) : List Char :=
  if _h : n < 10 then [digitChar n]
  else natToChars (n / 10) ++ [digitChar (n % 10)]
termination_by n
decreasing_by
  exact Nat.div_lt_self (by omega) (by omega)

/-- Numeric value of a decimal digit character, none for a non-digit. -/
def charVal (c : Char) : Option ℕ :=
  if c.isDigit then some (c.toNat - 48) else none

/-- Left fold of decimal digits onto an accumulator, none on the first
non-digit. -/
def pfold (acc : ℕ) : List Char → Option ℕ
  | [] => some acc
  | c :: cs =>
    match charVal c with
    | some d => pfold (acc * 10 + d) cs
    | none => none

/-- Embedding of the Python int() parse of a nonnegative decimal string:
none (a ValueError in Python) on the empty string or any non-digit. -/
def parseNat (l : List Char) : Option ℕ :=
  match l with
  | [] => none
  | _ => pfold 0 l

/-- The Python int(part[1:]) step of `get_params_from_str` applied to one
name component: strips the one-letter prefix and parses the rest as an
int, ValueError on failure. -/
def parseIntField (part : List Char) : Res ℕ :=
  match parseNat (part.drop 1) with
  | some n => .ok n
  | none => .err (.valueError "invalid literal for int with base 10")

/-- Python value of the gabor-kappa stimulus parameter: 4, 16, the list
of both values, or the string none sentinel forced by
`sess_gen_util.get_params` when the stimulus type is not gabors. -/
inductive GabkArg where
  | noneS
  | k4
  | k16
  | kboth
  deriving DecidableEq, Repr

/-- Python value of the brick-direction parameter: right, left, the list
of both directions, or the none sentinel. -/
inductive DirArg where
  | noneS
  | right
  | left
  | dboth
  deriving DecidableEq, Repr

/-- Python value of the brick-size parameter: 128, 256, the list of both
sizes, or the none sentinel. -/
inductive SizeArg where
  | noneS
  | s128
  | s256
  | sboth
  deriving DecidableEq, Repr

/-- The parameter dictionary returned by `get_params_from_str`. -/
structure ParsedParams where
  mouse_n : ℕ
  sess_n : ℕ
  stimtype : String
  gabk : GabkArg
  bri_dir : DirArg
  bri_size : SizeArg
  layer : String
  fluor : String
  scale : Bool
  comp : Option String
  shuffle : Bool
  deriving DecidableEq, Repr

/-- Modelled from the spec: the file variant of
`sess_str_util.stim_par_str(stimtype, bri_dir, bri_size, gabk, "file")`
(sess_str_util is not under src/): one name segment starting gab or bri,
followed by the kappa token (gab4, gab16, gabboth) for gabors, or by the
size token (bri128, bri256, briboth) and, for a single direction, a
_right/_left token for bricks — exactly the tokens the documented name
grammar says the inverse parser sniffs for. -/
def stim_par_str_file (stimtype : String) (bri_dir : DirArg) (bri_size : SizeArg)
    (gabk : GabkArg) : List Char :=
  if stimtype = "gabors" then
    ['g', 'a', 'b'] ++ (match gabk with
      | .kboth => ['b', 'o', 't', 'h']
      | .k4 => ['4']
      | .k16 => ['1', '6']
      | .noneS => [])
  else if stimtype = "bricks" then
    ['b', 'r', 'i'] ++ (match bri_size with
      | .sboth => ['b', 'o', 't', 'h']
      | .s256 => ['2', '5', '6']
      | .s128 => ['1', '2', '8']
      | .noneS => []) ++ (match bri_dir with
      | .right => ['_', 'r', 'i', 'g', 'h', 't']
      | .left => ['_', 'l', 'e', 'f', 't']
      | _ => [])
  else []

/-- Modelled from the spec: the file variant of
`sess_str_util.scale_par_str(scale)` — the _scaled token when scaling is
on, empty otherwise (the parser recovers the flag from the presence of
the substring scale). -/
def scale_par_str_file (scale : Bool) : List Char :=
  if scale then ['_', 's', 'c', 'a', 'l', 'e', 'd'] else []

/-- The file variant of the shuffle fragment, as computed by
`str_util.shuff_par_str(shuffle, "file")` (src/util/str_util.py lines
20-48): the _shuffled token when shuffling, empty otherwise. -/
def analysdir_shuff_str (shuffle : Bool) : List Char :=
  if shuffle then ['_', 's', 'h', 'u', 'f', 'f', 'l', 'e', 'd'] else []

/-- The comp fragment of `get_analysdir`
(src/sess_util/sess_gen_util.py, lines 891-894): empty for None,
an underscore followed by the comparison name otherwise. -/
def comp_str (comp : Option String) : List Char :=
  match comp with
  | none => []
  | some c => '_' :: c.toList

/-- Embedding of `get_analysdir(mouse_n, sess_n, layer, fluor, scale,
stimtype, bri_dir, bri_size, gabk, comp, shuffle)`
(src/sess_util/sess_gen_util.py, lines 846-898), producing the name
`m{mouse_n}_s{sess_n}_{layer}_{stim_str}_{fluor}{scale_str}{comp_str}{shuff_str}`
as a character list. -/
def get_analysdir (mouse_n sess_n : ℕ) (layer fluor : String) (scale : Bool)
    (stimtype : String) (bri_dir : DirArg) (bri_size : SizeArg) (gabk : GabkArg)
    (comp : Option String) (shuffle : Bool) : List Char :=
  ('m' :: natToChars mouse_n) ++ '_' :: (('s' :: natToChars sess_n) ++ ('_' ::
    (layer.toList ++ '_' :: (stim_par_str_file stimtype bri_dir bri_size gabk ++ '_' ::
      (fluor.toList ++ scale_par_str_file scale ++ comp_str comp
        ++ analysdir_shuff_str shuffle)))))

/-- The results of every substring-containment query performed by
`get_params_from_str` on the parameter string. -/
structure Sniffs where
  gab : Bool
  bri : Bool
  both : Bool
  gab4 : Bool
  bri256 : Bool
  dirRight : Bool
  dirLeft : Bool
  soma : Bool
  dend : Bool
  dff : Bool
  raw : Bool
  scaleTok : Bool
  surp : Bool
  avb : Bool
  avc : Bool
  bvc : Bool
  dve : Bool
  shuffled : Bool
  deriving DecidableEq, Repr

/-- All containment queries of `get_params_from_str` evaluated on one
parameter string. -/
def getSniffs (p : List Char) : Sniffs :=
  ⟨containsTok ['g', 'a', 'b'] p,
   containsTok ['b', 'r', 'i'] p,
   containsTok ['b', 'o', 't', 'h'] p,
   containsTok ['g', 'a', 'b', '4'] p,
   containsTok ['b', 'r', 'i', '2', '5', '6'] p,
   containsTok ['r', 'i', 'g', 'h', 't'] p,
   containsTok ['l', 'e', 'f', 't'] p,
   containsTok ['s', 'o', 'm', 'a'] p,
   containsTok ['d', 'e', 'n', 'd'] p,
   containsTok ['d', 'f', 'f'] p,
   containsTok ['r', 'a', 'w'] p,
   containsTok ['s', 'c', 'a', 'l', 'e'] p,
   containsTok ['s', 'u', 'r', 'p'] p,
   containsTok ['A', 'v', 'B'] p,
   containsTok ['A', 'v', 'C'] p,
   containsTok ['B', 'v', 'C'] p,
   containsTok ['D', 'v', 'E'] p,
   containsTok ['s', 'h', 'u', 'f', 'f', 'l', 'e', 'd'] p⟩

/-- The stimulus-identification step of `get_params_from_str`
(src/sess_util/sess_gen_util.py, lines 941-962): gab before bri,
both before gab4 / bri256, right before left, ValueError when neither
stimulus token is present; absent parameters keep the none sentinel. -/
def sniffStim (s : Sniffs) : Res (String × GabkArg × DirArg × SizeArg) :=
  if s.gab then
    .ok ("gabors",
      (if s.both then .kboth else if s.gab4 then .k4 else .k16), .noneS, .noneS)
  else if s.bri then
    .ok ("bricks", .noneS,
      (if s.dirRight then .right else if s.dirLeft then .left else .dboth),
      (if s.both then .sboth else if s.bri256 then .s256 else .s128))
  else .err (.valueError "Stimtype not identified.")

/-- The layer-identification step of `get_params_from_str`
(lines 964-969): soma before dend, ValueError when neither is present. -/
def sniffLayer (s : Sniffs) : Res String :=
  if s.soma then .ok "soma"
  else if s.dend then .ok "dend"
  else .err (.valueError "Layer not identified.")

/-- The fluorescence-identification step of `get_params_from_str`
(lines 971-976): dff before raw, ValueError when neither is present. -/
def sniffFluor (s : Sniffs) : Res String :=
  if s.dff then .ok "dff"
  else if s.raw then .ok "raw"
  else .err (.valueError "Fluorescence type not identified.")

/-- The comparison loop of `get_params_from_str` (lines 982-985): every
comparison token present overwrites the result, so the last match in the
fixed order surp, AvB, AvC, BvC, DvE wins. -/
def sniffComp (s : Sniffs) : Option String :=
  let c : Option String := none
  let c := if s.surp then some "surp" else c
  let c := if s.avb then some "AvB" else c
  let c := if s.avc then some "AvC" else c
  let c := if s.bvc then some "BvC" else c
  if s.dve then some "DvE" else c

/-- The dictionary fields of `get_params_from_str` other than the mouse
and session numbers, assembled from the containment-query results in
source order (stimulus, layer, fluorescence, scale, comp, shuffle). -/
structure TailParams where
  stimtype : String
  gabk : GabkArg
  bri_dir : DirArg
  bri_size : SizeArg
  layer : String
  fluor : String
  scale : Bool
  comp : Option String
  shuffle : Bool
  deriving DecidableEq, Repr

/-- Sniff-result assembly of `get_params_from_str`
(src/sess_util/sess_gen_util.py, lines 938-989). -/
def sniffsToTail (sn : Sniffs) : Res TailParams := do
  let st ← sniffStim sn
  let layer ← sniffLayer sn
  let fluor ← sniffFluor sn
  .ok { stimtype := st.1, gabk := st.2.1, bri_dir := st.2.2.1, bri_size := st.2.2.2,
        layer := layer, fluor := fluor, scale := sn.scaleTok,
        comp := sniffComp sn, shuffle := sn.shuffled }

/-- Packs the parsed mouse and session numbers with the remaining parsed
fields. -/
def mkParsed (m s : ℕ) (t : TailParams) : ParsedParams :=
  { mouse_n := m, sess_n := s, stimtype := t.stimtype, gabk := t.gabk,
    bri_dir := t.bri_dir, bri_size := t.bri_size, layer := t.layer,
    fluor := t.fluor, scale := t.scale, comp := t.comp, shuffle := t.shuffle }

/-- Embedding of `get_params_from_str(param_str)`
(src/sess_util/sess_gen_util.py, lines 902-989): parses the mouse and
session numbers positionally from the first two underscore-separated
components (IndexError on a missing component, ValueError on a non-int),
then identifies every other field by substring sniffing. -/
def get_params_from_str (p : List Char) : Res ParsedParams :=
  let parts := splitOnChar '_' p
  (match parts.get? 0 with
   | some p0 => parseIntField p0
   | none => Res.err (.indexError "list index out of range")) >>= fun m =>
  (match parts.get? 1 with
   | some p1 => parseIntField p1
   | none => Res.err (.indexError "list index out of range")) >>= fun s =>
  (sniffsToTail (getSniffs p)) >>= fun t =>
  .ok (mkParsed m s t)

/-- Valid layer values of the legacy generation. -/
inductive LayerE where
  | soma
  | dend
  deriving DecidableEq, Fintype, Repr

/-- The Python string of a valid layer value. -/
def LayerE.str : LayerE → String
  | .soma => "soma"
  | .dend => "dend"

/-- Valid fluorescence values. -/
inductive FluorE where
  | raw
  | dff
  deriving DecidableEq, Fintype, Repr

/-- The Python string of a valid fluorescence value. -/
def FluorE.str : FluorE → String
  | .raw => "raw"
  | .dff => "dff"

/-- Valid comparison values (None or one of the five comparison names). -/
inductive CompE where
  | cnone
  | surp
  | avb
  | avc
  | bvc
  | dve
  deriving DecidableEq, Fintype, Repr

/-- The Python value of a valid comparison choice. -/
def CompE.opt : CompE → Option String
  | .cnone => none
  | .surp => some "surp"
  | .avb => some "AvB"
  | .avc => some "AvC"
  | .bvc => some "BvC"
  | .dve => some "DvE"

/-- Valid gabor-kappa values for a gabors analysis. -/
inductive GabKE where
  | k4
  | k16
  | kboth
  deriving DecidableEq, Fintype, Repr

/-- Valid brick-direction values for a bricks analysis. -/
inductive DirE where
  | right
  | left
  | dboth
  deriving DecidableEq, Fintype, Repr

/-- Valid brick-size values for a bricks analysis. -/
inductive SizeE where
  | s128
  | s256
  | sboth
  deriving DecidableEq, Fintype, Repr

/-- A valid stimulus configuration: a gabors analysis carries a kappa
value and the none sentinel for the brick parameters (as forced by
`sess_gen_util.get_params`), a bricks analysis carries direction and size
and the none sentinel for kappa. -/
inductive StimE where
  | gabors (k : GabKE)
  | bricks (d : DirE) (sz : SizeE)
  deriving DecidableEq, Fintype, Repr

/-- The stimtype string of a valid stimulus configuration. -/
def StimE.stimtype : StimE → String
  | .gabors _ => "gabors"
  | .bricks _ _ => "bricks"

/-- The gabor-kappa argument of a valid stimulus configuration. -/
def StimE.gabkArg : StimE → GabkArg
  | .gabors .k4 => .k4
  | .gabors .k16 => .k16
  | .gabors .kboth => .kboth
  | .bricks _ _ => .noneS

/-- The brick-direction argument of a valid stimulus configuration. -/
def StimE.dirArg : StimE → DirArg
  | .gabors _ => .noneS
  | .bricks .right _ => .right
  | .bricks .left _ => .left
  | .bricks .dboth _ => .dboth

/-- The brick-size argument of a valid stimulus configuration. -/
def StimE.sizeArg : StimE → SizeArg
  | .gabors _ => .noneS
  | .bricks _ .s128 => .s128
  | .bricks _ .s256 => .s256
  | .bricks _ .sboth => .sboth

/-- One valid combination of all non-numeric `get_analysdir` arguments. -/
structure Cfg where
  layer : LayerE
  fluor : FluorE
  scale : Bool
  stim : StimE
  comp : CompE
  shuffle : Bool
  deriving DecidableEq, Fintype, Repr

/-- The part of the analysis-directory name that follows the
`m{mouse_n}_s{sess_n}_` header, for one valid configuration. -/
def tailBody (c : Cfg) : List Char :=
  c.layer.str.toList ++ '_' ::
    (stim_par_str_file c.stim.stimtype c.stim.dirArg c.stim.sizeArg c.stim.gabkArg ++ '_' ::
      (c.fluor.str.toList ++ scale_par_str_file c.scale ++ comp_str c.comp.opt
        ++ analysdir_shuff_str c.shuffle))

/-- The parsed fields the round trip is expected to recover for one valid
configuration: exactly the configuration itself. -/
def expectedTail (c : Cfg) : TailParams :=
  { stimtype := c.stim.stimtype, gabk := c.stim.gabkArg, bri_dir := c.stim.dirArg,
    bri_size := c.stim.sizeArg, layer := c.layer.str, fluor := c.fluor.str,
    scale := c.scale, comp := c.comp.opt, shuffle := c.shuffle }

/-- A digit character below ten has the isDigit property. -/
theorem digitChar_isDigit {n : ℕ} (h : n < 10) : (digitChar n).isDigit = true := by
  interval_cases n <;> decide

/-- A digit character parses back to its value. -/
theorem charVal_digitChar {n : ℕ} (h : n < 10) : charVal (digitChar n) = some n := by
  interval_cases n <;> decide

/-- A digit character is not an underscore. -/
theorem digit_ne_underscore {c : Char} (h : c.isDigit = true) : c ≠ '_' := by
  intro hh
  rw [hh] at h
  exact absurd h (by decide)

/-- Every character of a printed natural number is a digit. -/
theorem natToChars_digits (n : ℕ) : ∀ c ∈ natToChars n, c.isDigit = true := by
  induction n using Nat.strong_induction_on with
  | _ n ih =>
    rw [natToChars]
    split
    · rename_i h
      intro c hc
      simp only [List.mem_singleton] at hc
      subst hc
      exact digitChar_isDigit h
    · rename_i h
      intro c hc
      rw [List.mem_append] at hc
      rcases hc with hc | hc
      · exact ih (n / 10) (Nat.div_lt_self (by omega) (by omega)) c hc
      · simp only [List.mem_singleton] at hc
        subst hc
        exact digitChar_isDigit (Nat.mod_lt _ (by omega))

/-- A printed natural number is never the empty string. -/
theorem natToChars_ne_nil (n : ℕ) : natToChars n ≠ [] := by
  rw [natToChars]
  split <;> simp

/-- Splitting the digit fold over an append. -/
theorem pfold_append (xs : List Char) : ∀ (acc : ℕ) (ys : List Char),
    pfold acc (xs ++ ys) = match pfold acc xs with
      | some a => pfold a ys
      | none => none := by
  induction xs with
  | nil => intro acc ys; rfl
  | cons c cs ih =>
    intro acc ys
    simp only [List.cons_append, pfold]
    cases hcv : charVal c with
    | some d => exact ih _ _
    | none => rfl

/-- Value of the digit fold on a printed natural number. -/
theorem pfold_natToChars (n : ℕ) : ∀ acc : ℕ,
    pfold acc (natToChars n) = some (acc * 10 ^ (natToChars n).length + n) := by
  induction n using Nat.strong_induction_on with
  | _ n ih =>
    intro acc
    rw [natToChars]
    split
    · rename_i h
      simp only [pfold, charVal_digitChar h, List.length_cons, List.length_nil]
      norm_num
    · rename_i h
      rw [pfold_append, ih (n / 10) (Nat.div_lt_self (by omega) (by omega)) acc]
      have h10 : n % 10 < 10 := Nat.mod_lt _ (by omega)
      simp only [pfold, charVal_digitChar h10, List.length_append, List.length_cons,
        List.length_nil]
      congr 1
      have hdm := Nat.div_add_mod n 10
      calc (acc * 10 ^ (natToChars (n / 10)).length + n / 10) * 10 + n % 10
          = acc * (10 ^ (natToChars (n / 10)).length * 10) + (10 * (n / 10) + n % 10) := by
            ring
        _ = acc * 10 ^ ((natToChars (n / 10)).length + 0 + 1) + n := by
            rw [pow_succ]
            omega

/-- The decimal print/parse round trip on natural numbers. -/
theorem parseNat_natToChars (n : ℕ) : parseNat (natToChars n) = some n := by
  have h := pfold_natToChars n 0
  cases hnc : natToChars n with
  | nil => exact absurd hnc (natToChars_ne_nil n)
  | cons c cs =>
    rw [hnc] at h
    simp only [parseNat]
    simpa using h

/-- `splitOnChar` never returns an empty list of pieces. -/
theorem splitOnChar_ne_nil (sep : Char) (l : List Char) : splitOnChar sep l ≠ [] := by
  cases l with
  | nil => simp [splitOnChar]
  | cons x xs =>
    simp only [splitOnChar]
    rcases h : splitOnChar sep xs with _ | ⟨r, rs⟩
    · simp
    · by_cases hx : x = sep <;> simp [hx]

/-- Splitting off a separator-free leading piece. -/
theorem splitOnChar_piece (sep : Char) :
    ∀ (xs l : List Char), (∀ x ∈ xs, x ≠ sep) →
      splitOnChar sep (xs ++ sep :: l) = xs :: splitOnChar sep l := by
  intro xs
  induction xs with
  | nil =>
    intro l _
    simp only [List.nil_append, splitOnChar]
    rcases h : splitOnChar sep l with _ | ⟨r, rs⟩
    · exact absurd h (splitOnChar_ne_nil sep l)
    · simp
  | cons x xs ih =>
    intro l hx
    have hxs : x ≠ sep := hx x (by simp)
    simp only [List.cons_append, splitOnChar, List.append_eq]
    rw [ih l (fun y hy => hx y (by simp [hy]))]
    simp [hxs]

/-- A prefix test against a list with a different head fails. -/
theorem isPrefixTok_cons_ne {c d : Char} (h : c ≠ d) (ts l : List Char) :
    isPrefixTok (c :: ts) (d :: l) = false := by
  simp [isPrefixTok, h]

/-- A containment scan steps over a character that differs from the token
head. -/
theorem containsTok_cons_ne {c d : Char} (h : c ≠ d) (ts l : List Char) :
    containsTok (c :: ts) (d :: l) = containsTok (c :: ts) l := by
  simp [containsTok, isPrefixTok, h]

/-- A containment scan for a token with a non-digit head steps over any
run of digit characters. -/
theorem containsTok_digit_skip {c : Char} (ts : List Char) (hc : c.isDigit = false) :
    ∀ (dm : List Char), (∀ x ∈ dm, x.isDigit = true) →
      ∀ rest, containsTok (c :: ts) (dm ++ rest) = containsTok (c :: ts) rest := by
  intro dm
  induction dm with
  | nil => intro _ rest; simp
  | cons d dm ih =>
    intro hdm rest
    have hcd : c ≠ d := fun hh => by
      have hd : d.isDigit = true := hdm d (by simp)
      rw [hh, hd] at hc
      simp at hc
    rw [List.cons_append, containsTok_cons_ne hcd,
      ih (fun x hx => hdm x (by simp [hx])) rest]

/-- A containment scan for any of the parser tokens steps over the whole
`m{digits}_s{digits}` header of an analysis-directory name: no token
starts with the letter m, an underscore, or a digit, and the tokens
starting with the letter s continue with a non-digit. -/
theorem sniff_header_skip (c : Char) (ts : List Char)
    (hcd : c.isDigit = false) (hcu : c ≠ '_') (hcm : c ≠ 'm')
    (hcs : c = 's' → ∃ c2 t2, ts = c2 :: t2 ∧ c2.isDigit = false)
    (dm ds rest : List Char)
    (hdm : ∀ x ∈ dm, x.isDigit = true) (hds : ∀ x ∈ ds, x.isDigit = true)
    (hdsne : ds ≠ []) :
    containsTok (c :: ts) (('m' :: dm) ++ '_' :: (('s' :: ds) ++ rest))
      = containsTok (c :: ts) rest := by
  rw [List.cons_append, containsTok_cons_ne hcm,
    containsTok_digit_skip ts hcd dm hdm, containsTok_cons_ne hcu, List.cons_append]
  by_cases hc : c = 's'
  · subst hc
    obtain ⟨c2, t2, rfl, hc2⟩ := hcs rfl
    obtain ⟨d, ds', rfl⟩ : ∃ d ds', ds = d :: ds' := by
      cases ds with
      | nil => exact absurd rfl hdsne
      | cons d ds' => exact ⟨d, ds', rfl⟩
    have hc2d : c2 ≠ d := fun hh => by
      have hd : d.isDigit = true := hds d (by simp)
      rw [hh, hd] at hc2
      simp at hc2
    have hsd : 's' ≠ d := fun hh => by
      have hd : d.isDigit = true := hds d (by simp)
      rw [← hh] at hd
      exact absurd hd (by decide)
    rw [List.cons_append]
    have e1 : containsTok ('s' :: c2 :: t2) ('s' :: (d :: (ds' ++ rest)))
        = (isPrefixTok ('s' :: c2 :: t2) ('s' :: d :: (ds' ++ rest))
            || containsTok ('s' :: c2 :: t2) (d :: (ds' ++ rest))) := rfl
    rw [e1, show isPrefixTok ('s' :: c2 :: t2) ('s' :: d :: (ds' ++ rest)) = false from by
        simp [isPrefixTok, hc2d],
      Bool.false_or, containsTok_cons_ne hsd,
      containsTok_digit_skip (c := 's') (c2 :: t2) (by decide) ds'
        (fun x hx => hds x (by simp [hx])) rest]
  · rw [containsTok_cons_ne hc, containsTok_digit_skip ts hcd ds hds rest]

/-- Every containment query of the parser gives the same answer on the
full directory name as on the part after the numeric header. -/
theorem getSniffs_header (dm ds rest : List Char)
    (hdm : ∀ x ∈ dm, x.isDigit = true) (hds : ∀ x ∈ ds, x.isDigit = true)
    (hdsne : ds ≠ []) :
    getSniffs (('m' :: dm) ++ '_' :: (('s' :: ds) ++ rest)) = getSniffs rest := by
  have H : ∀ (c : Char) (ts : List Char), c.isDigit = false → c ≠ '_' → c ≠ 'm' →
      (c = 's' → ∃ c2 t2, ts = c2 :: t2 ∧ c2.isDigit = false) →
      containsTok (c :: ts) (('m' :: dm) ++ '_' :: (('s' :: ds) ++ rest))
        = containsTok (c :: ts) rest := fun c ts h1 h2 h3 h4 =>
    sniff_header_skip c ts h1 h2 h3 h4 dm ds rest hdm hds hdsne
  unfold getSniffs
  simp only [Sniffs.mk.injEq]
  refine ⟨?_, ?_, ?_, ?_, ?_, ?_, ?_, ?_, ?_, ?_, ?_, ?_, ?_, ?_, ?_, ?_, ?_, ?_⟩
  · exact H 'g' ['a', 'b'] (by decide) (by decide) (by decide)
      (fun hh => absurd hh (by decide))
  · exact H 'b' ['r', 'i'] (by decide) (by decide) (by decide)
      (fun hh => absurd hh (by decide))
  · exact H 'b' ['o', 't', 'h'] (by decide) (by decide) (by decide)
      (fun hh => absurd hh (by decide))
  · exact H 'g' ['a', 'b', '4'] (by decide) (by decide) (by decide)
      (fun hh => absurd hh (by decide))
  · exact H 'b' ['r', 'i', '2', '5', '6'] (by decide) (by decide) (by decide)
      (fun hh => absurd hh (by decide))
  · exact H 'r' ['i', 'g', 'h', 't'] (by decide) (by decide) (by decide)
      (fun hh => absurd hh (by decide))
  · exact H 'l' ['e', 'f', 't'] (by decide) (by decide) (by decide)
      (fun hh => absurd hh (by decide))
  · exact H 's' ['o', 'm', 'a'] (by decide) (by decide) (by decide)
      (fun _ => ⟨'o', ['m', 'a'], rfl, by decide⟩)
  · exact H 'd' ['e', 'n', 'd'] (by decide) (by decide) (by decide)
      (fun hh => absurd hh (by decide))
  · exact H 'd' ['f', 'f'] (by decide) (by decide) (by decide)
      (fun hh => absurd hh (by decide))
  · exact H 'r' ['a', 'w'] (by decide) (by decide) (by decide)
      (fun hh => absurd hh (by decide))
  · exact H 's' ['c', 'a', 'l', 'e'] (by decide) (by decide) (by decide)
      (fun _ => ⟨'c', ['a', 'l', 'e'], rfl, by decide⟩)
  · exact H 's' ['u', 'r', 'p'] (by decide) (by decide) (by decide)
      (fun _ => ⟨'u', ['r', 'p'], rfl, by decide⟩)
  · exact H 'A' ['v', 'B'] (by decide) (by decide) (by decide)
      (fun hh => absurd hh (by decide))
  · exact H 'A' ['v', 'C'] (by decide) (by decide) (by decide)
      (fun hh => absurd hh (by decide))
  · exact H 'B' ['v', 'C'] (by decide) (by decide) (by decide)
      (fun hh => absurd hh (by decide))
  · exact H 'D' ['v', 'E'] (by decide) (by decide) (by decide)
      (fun hh => absurd hh (by decide))
  · exact H 's' ['h', 'u', 'f', 'f', 'l', 'e', 'd'] (by decide) (by decide) (by decide)
      (fun _ => ⟨'h', ['u', 'f', 'f', 'l', 'e', 'd'], rfl, by decide⟩)

/-- Splitting an analysis-directory name on underscores puts the mouse
and session components first, whatever follows. -/
theorem split_header (dm ds body : List Char)
    (hdm : ∀ x ∈ dm, x ≠ '_') (hds : ∀ x ∈ ds, x ≠ '_') :
    splitOnChar '_' (('m' :: dm) ++ '_' :: (('s' :: ds) ++ ('_' :: body)))
      = ('m' :: dm) :: ('s' :: ds) :: splitOnChar '_' body := by
  rw [splitOnChar_piece '_' ('m' :: dm) _ (by
    intro x hx
    rcases List.mem_cons.1 hx with rfl | hx
    · decide
    · exact hdm x hx)]
  rw [splitOnChar_piece '_' ('s' :: ds) body (by
    intro x hx
    rcases List.mem_cons.1 hx with rfl | hx
    · decide
    · exact hds x hx)]

/-- The parser applied to a well-formed directory name: the numeric
header parses back to the mouse and session numbers and every other field
is determined by the tail alone. -/
theorem get_params_header (m s : ℕ) (body : List Char) :
    get_params_from_str
        (('m' :: natToChars m) ++ '_' :: (('s' :: natToChars s) ++ ('_' :: body)))
      = (sniffsToTail (getSniffs ('_' :: body))) >>= fun t => .ok (mkParsed m s t) := by
  have hdm := natToChars_digits m
  have hds := natToChars_digits s
  simp only [get_params_from_str]
  rw [split_header _ _ _ (fun x hx => digit_ne_underscore (hdm x hx))
    (fun x hx => digit_ne_underscore (hds x hx))]
  rw [getSniffs_header _ _ _ hdm hds (natToChars_ne_nil s)]
  simp [parseIntField, parseNat_natToChars]

set_option maxRecDepth 10000 in
/-- Finite check of the sniff-and-parse round trip for the gabors k4
stimulus configuration, over all layer, fluorescence, scale, comparison and
shuffle combinations. -/
theorem tail_check_gabors_k4 : ∀ (l : LayerE) (f : FluorE) (sc sh : Bool) (co : CompE),
    sniffsToTail (getSniffs ('_' :: tailBody ⟨l, f, sc, .gabors .k4, co, sh⟩)) =
      .ok (expectedTail ⟨l, f, sc, .gabors .k4, co, sh⟩) := by decide

set_option maxRecDepth 10000 in
/-- Finite check of the sniff-and-parse round trip for the gabors k16
stimulus configuration, over all layer, fluorescence, scale, comparison and
shuffle combinations. -/
theorem tail_check_gabors_k16 : ∀ (l : LayerE) (f : FluorE) (sc sh : Bool) (co : CompE),
    sniffsToTail (getSniffs ('_' :: tailBody ⟨l, f, sc, .gabors .k16, co, sh⟩)) =
      .ok (expectedTail ⟨l, f, sc, .gabors .k16, co, sh⟩) := by decide

set_option maxRecDepth 10000 in
/-- Finite check of the sniff-and-parse round trip for the gabors kboth
stimulus configuration, over all layer, fluorescence, scale, comparison and
shuffle combinations. -/
theorem tail_check_gabors_kboth : ∀ (l : LayerE) (f : FluorE) (sc sh : Bool) (co : CompE),
    sniffsToTail (getSniffs ('_' :: tailBody ⟨l, f, sc, .gabors .kboth, co, sh⟩)) =
      .ok (expectedTail ⟨l, f, sc, .gabors .kboth, co, sh⟩) := by decide

set_option maxRecDepth 10000 in
/-- Finite check of the sniff-and-parse round trip for the bricks right s128
stimulus configuration, over all layer, fluorescence, scale, comparison and
shuffle combinations. -/
theorem tail_check_bricks_right_s128 : ∀ (l : LayerE) (f : FluorE) (sc sh : Bool) (co : CompE),
    sniffsToTail (getSniffs ('_' :: tailBody ⟨l, f, sc, .bricks .right .s128, co, sh⟩)) =
      .ok (expectedTail ⟨l, f, sc, .bricks .right .s128, co, sh⟩) := by decide

set_option maxRecDepth 10000 in
/-- Finite check of the sniff-and-parse round trip for the bricks right s256
stimulus configuration, over all layer, fluorescence, scale, comparison and
shuffle combinations. -/
theorem tail_check_bricks_right_s256 : ∀ (l : LayerE) (f : FluorE) (sc sh : Bool) (co : CompE),
    sniffsToTail (getSniffs ('_' :: tailBody ⟨l, f, sc, .bricks .right .s256, co, sh⟩)) =
      .ok (expectedTail ⟨l, f, sc, .bricks .right .s256, co, sh⟩) := by decide

set_option maxRecDepth 10000 in
/-- Finite check of the sniff-and-parse round trip for the bricks right sboth
stimulus configuration, over all layer, fluorescence, scale, comparison and
shuffle combinations. -/
theorem tail_check_bricks_right_sboth : ∀ (l : LayerE) (f : FluorE) (sc sh : Bool) (co : CompE),
    sniffsToTail (getSniffs ('_' :: tailBody ⟨l, f, sc, .bricks .right .sboth, co, sh⟩)) =
      .ok (expectedTail ⟨l, f, sc, .bricks .right .sboth, co, sh⟩) := by decide

set_option maxRecDepth 10000 in
/-- Finite check of the sniff-and-parse round trip for the bricks left s128
stimulus configuration, over all layer, fluorescence, scale, comparison and
shuffle combinations. -/
theorem tail_check_bricks_left_s128 : ∀ (l : LayerE) (f : FluorE) (sc sh : Bool) (co : CompE),
    sniffsToTail (getSniffs ('_' :: tailBody ⟨l, f, sc, .bricks .left .s128, co, sh⟩)) =
      .ok (expectedTail ⟨l, f, sc, .bricks .left .s128, co, sh⟩) := by decide

set_option maxRecDepth 10000 in
/-- Finite check of the sniff-and-parse round trip for the bricks left s256
stimulus configuration, over all layer, fluorescence, scale, comparison and
shuffle combinations. -/
theorem tail_check_bricks_left_s256 : ∀ (l : LayerE) (f : FluorE) (sc sh : Bool) (co : CompE),
    sniffsToTail (getSniffs ('_' :: tailBody ⟨l, f, sc, .bricks .left .s256, co, sh⟩)) =
      .ok (expectedTail ⟨l, f, sc, .bricks .left .s256, co, sh⟩) := by decide

set_option maxRecDepth 10000 in
/-- Finite check of the sniff-and-parse round trip for the bricks left sboth
stimulus configuration, over all layer, fluorescence, scale, comparison and
shuffle combinations. -/
theorem tail_check_bricks_left_sboth : ∀ (l : LayerE) (f : FluorE) (sc sh : Bool) (co : CompE),
    sniffsToTail (getSniffs ('_' :: tailBody ⟨l, f, sc, .bricks .left .sboth, co, sh⟩)) =
      .ok (expectedTail ⟨l, f, sc, .bricks .left .sboth, co, sh⟩) := by decide

set_option maxRecDepth 10000 in
/-- Finite check of the sniff-and-parse round trip for the bricks dboth s128
stimulus configuration, over all layer, fluorescence, scale, comparison and
shuffle combinations. -/
theorem tail_check_bricks_dboth_s128 : ∀ (l : LayerE) (f : FluorE) (sc sh : Bool) (co : CompE),
    sniffsToTail (getSniffs ('_' :: tailBody ⟨l, f, sc, .bricks .dboth .s128, co, sh⟩)) =
      .ok (expectedTail ⟨l, f, sc, .bricks .dboth .s128, co, sh⟩) := by decide

set_option maxRecDepth 10000 in
/-- Finite check of the sniff-and-parse round trip for the bricks dboth s256
stimulus configuration, over all layer, fluorescence, scale, comparison and
shuffle combinations. -/
theorem tail_check_bricks_dboth_s256 : ∀ (l : LayerE) (f : FluorE) (sc sh : Bool) (co : CompE),
    sniffsToTail (getSniffs ('_' :: tailBody ⟨l, f, sc, .bricks .dboth .s256, co, sh⟩)) =
      .ok (expectedTail ⟨l, f, sc, .bricks .dboth .s256, co, sh⟩) := by decide

set_option maxRecDepth 10000 in
/-- Finite check of the sniff-and-parse round trip for the bricks dboth sboth
stimulus configuration, over all layer, fluorescence, scale, comparison and
shuffle combinations. -/
theorem tail_check_bricks_dboth_sboth : ∀ (l : LayerE) (f : FluorE) (sc sh : Bool) (co : CompE),
    sniffsToTail (getSniffs ('_' :: tailBody ⟨l, f, sc, .bricks .dboth .sboth, co, sh⟩)) =
      .ok (expectedTail ⟨l, f, sc, .bricks .dboth .sboth, co, sh⟩) := by decide

/-- The sniffed fields of every valid configuration parse back to exactly
that configuration (finite check over all 1152 valid combinations of
layer, fluorescence, scale, stimulus parameters, comparison and shuffle
values). -/
theorem tail_check : ∀ c : Cfg, sniffsToTail (getSniffs ('_' :: tailBody c)) =
    .ok (expectedTail c) := by
  intro c
  obtain ⟨l, f, sc, st, co, sh⟩ := c
  cases st with
  | gabors k =>
    cases k with
    | k4 => exact tail_check_gabors_k4 l f sc sh co
    | k16 => exact tail_check_gabors_k16 l f sc sh co
    | kboth => exact tail_check_gabors_kboth l f sc sh co
  | bricks d sz =>
    cases d with
    | right =>
      cases sz with
      | s128 => exact tail_check_bricks_right_s128 l f sc sh co
      | s256 => exact tail_check_bricks_right_s256 l f sc sh co
      | sboth => exact tail_check_bricks_right_sboth l f sc sh co
    | left =>
      cases sz with
      | s128 => exact tail_check_bricks_left_s128 l f sc sh co
      | s256 => exact tail_check_bricks_left_s256 l f sc sh co
      | sboth => exact tail_check_bricks_left_sboth l f sc sh co
    | dboth =>
      cases sz with
      | s128 => exact tail_check_bricks_dboth_s128 l f sc sh co
      | s256 => exact tail_check_bricks_dboth_s256 l f sc sh co
      | sboth => exact tail_check_bricks_dboth_sboth l f sc sh co

/-- C6: the three documented return values of `depth_vals` hold
(`depth_vals("any","any") = "any"`, `depth_vals("dend","L23") = [50,75]`,
`depth_vals("soma","any") = [175,375]`), and an unrecognized layer raises
the accepted-values InvalidInput error; but an unrecognized line with a
valid layer raises a KeyError from the depth-dict lookup instead of the
accepted-values error, because the line check at
src/sess_util/sess_gen_util.py line 63 tests `layer` instead of `line`.
This refutes the claim that an out-of-range line value raises InvalidInput. -/
theorem C6_depth_vals_code_bug :
    depth_vals "any" "any" = .ok .anyStr ∧
    depth_vals "dend" "L23" = .ok (.vals [50, 75]) ∧
    depth_vals "soma" "any" = .ok (.vals [175, 375]) ∧
    depth_vals "bad_layer" "L23"
      = .err (accepted_values_error "layer" "bad_layer" all_layers) ∧
    depth_vals "soma" "L7" = .err (.keyError "L7_soma") ∧
    ∀ e, depth_vals "soma" "L7" ≠ .err (accepted_values_error "line" "L7" e) := by
  refine ⟨by decide, by decide, by decide, by decide, by decide, ?_⟩
  intro e h
  have h2 : depth_vals "soma" "L7" = .err (.keyError "L7_soma") := by decide
  rw [h2] at h
  exact absurd (Res.err.inj h) (by simp [accepted_values_error])

/-- C3: `get_ran_s(None, "both")` does not return the dict of 3.5 values
claimed by the spec and by its own docstring: because the source assigns
the bare float `3.5` to `vals` and then subscripts `vals[0]`, it raises a
TypeError.  The other two parts of the claim hold:
`get_ran_s([2,4], "roi")` returns the four pup/roi keys with values 2 and
4 and no run keys, and a dict missing required keys raises a ValueError
naming the missing keys. -/
theorem C3_get_ran_s_code_bug :
    get_ran_s .pynone "both" = .err (.typeError "float object is not subscriptable") ∧
    get_ran_s (.list [2, 4]) "roi" =
      .ok [("pup_pre", 2), ("pup_post", 4), ("roi_pre", 2), ("roi_post", 4)] ∧
    get_ran_s (.dict [("pup_pre", 1)]) "roi" =
      .err (.valueError "ran_s is missing keys: pup_post, roi_pre, roi_post") := by
  refine ⟨by decide, ?_, by decide⟩
  decide

/-- C7: whenever `permpar.multcomp` is truthy, the legacy generation of
`run_mag_change` replaces permpar by a copy with multcomp set to False,
while the later generation replaces it by a copy with multcomp set to the
number of sessions; when multcomp is falsy both generations leave permpar
unchanged; and the two generations disagree on a concrete truthy input, so
their embeddings are not equivalent.  The replacement goes through
`get_modif_permpar` and returns a fresh bundle (the argument is never
mutated, as all values here are immutable). -/
theorem C7_run_mag_change_multcomp_divergence (permpar : PermPar) (n_sessions : ℕ) :
    run_mag_change_permpar_legacy permpar =
      .ok (if permpar.multcomp.truthy then { permpar with multcomp := .bool false }
           else permpar) ∧
    run_mag_change_permpar_openscope n_sessions permpar =
      .ok (if permpar.multcomp.truthy then { permpar with multcomp := .int n_sessions }
           else permpar) ∧
    run_mag_change_permpar_legacy (init_permpar (.int 10000) (.float 0.05) (.int 2) (.bool true)) ≠
      run_mag_change_permpar_openscope 3
        (init_permpar (.int 10000) (.float 0.05) (.int 2) (.bool true)) := by
  refine ⟨?_, ?_, ?_⟩
  · by_cases h : permpar.multcomp.truthy <;>
      simp [run_mag_change_permpar_legacy, get_modif_permpar, init_permpar, h]
  · by_cases h : permpar.multcomp.truthy <;>
      simp [run_mag_change_permpar_openscope, get_modif_permpar, init_permpar, h]
  · simp [run_mag_change_permpar_legacy, run_mag_change_permpar_openscope,
      get_modif_permpar, init_permpar, PyVal.truthy]

/-- C2: the scaling written into the output windows by `get_roi_data` and
`get_stim_data` is `2 * (x - mean) / std - 1`, not `(x - mean) / std`:
for the ROI trace `[0, 2]` the computed per-ROI mean is 1 and the computed
per-ROI std is 1 (variance 1), yet the scaled trace is `[-3, 1]` — whose
mean is -1 and std 2 — instead of the z-scored `[-1, 1]` promised by the
claim and by the comments in the source. -/
theorem C2_scaling_is_not_zscore :
    np_mean [0, 2] = 1 ∧
    np_var [0, 2] = 1 ∧
    (1 : ℚ) ≥ 0 ∧ (1 : ℚ) ^ 2 = np_var [0, 2] ∧
    scale_roi_trace [0, 2] 1 1 = [-3, 1] ∧
    np_mean (scale_roi_trace [0, 2] 1 1) = -1 ∧
    scale_run_val 0 1 1 = -3 ∧
    scale_roi_trace [0, 2] 1 1 ≠ [(0 - 1) / 1, (2 - 1) / 1] := by
  norm_num [np_mean, np_var, scale_roi_trace, scale_roi_val, scale_run_val]

/-- C9 counterexample: `shuff_par_str` called with a falsy shuffle flag
and a `type_str` outside its accepted set returns the empty string instead
of raising the accepted-values error, refuting the claim that every
type-string formatter rejects an out-of-range `type_str` for all values of
the other arguments. -/
theorem C9_counterexample_shuff_no_validation :
    shuff_par_str false "bogus" = .ok "" := by decide

/-- C9 amended: for every `type_str` outside print/file — the labels
value included — `fluor_par_str` raises the accepted-values InvalidInput
error whatever `raw` is, and `norm_par_str` does so when `norm` is
truthy; `shuff_par_str` with a truthy flag additionally accepts the
labels value (returning its labels fragment) and raises the
accepted-values error for every other out-of-range `type_str`; both
`shuff_par_str` and `norm_par_str` return the empty string without any
validation when their flag is falsy; `op_par_str` raises the
accepted-values error only for an unrecognized `plot_vals` — for a
recognized `plot_vals` any unrecognized `str_type` (labels included)
instead fails with an UnboundLocalError on the unassigned `op_str`. -/
theorem C9_type_str_validation (ts : String)
    (h1 : ts ≠ "print") (h2 : ts ≠ "file") :
    shuff_par_str true ts =
      (if ts = "labels" then .ok " (shuffled labels)"
       else .err (accepted_values_error "type_str" ts ["print", "file"])) ∧
    shuff_par_str false ts = .ok "" ∧
    norm_par_str true ts = .err (accepted_values_error "type_str" ts ["print", "file"]) ∧
    norm_par_str false ts = .ok "" ∧
    (∀ raw, fluor_par_str raw ts =
      .err (accepted_values_error "type_str" ts ["print", "file"])) ∧
    (∀ op area, op_par_str "diff" op area ts = .err (.unboundLocalError "op_str") ∧
      op_par_str "surp" op area ts = .err (.unboundLocalError "op_str") ∧
      op_par_str "nosurp" op area ts = .err (.unboundLocalError "op_str")) ∧
    (∀ pv op area st, pv ≠ "diff" → pv ≠ "surp" → pv ≠ "nosurp" →
      op_par_str pv op area st =
        .err (accepted_values_error "plot_vals" pv ["diff", "surp", "nosurp"])) := by
  refine ⟨?_, rfl, ?_, rfl, ?_, ?_, ?_⟩
  · by_cases h3 : ts = "labels" <;> simp [shuff_par_str, h1, h2, h3]
  · simp [norm_par_str, h1, h2]
  · intro raw; cases raw <;> simp [fluor_par_str, h1, h2]
  · intro op area; refine ⟨?_, ?_, ?_⟩ <;> simp [op_par_str, h1, h2]
  · intro pv op area st hp1 hp2 hp3; simp [op_par_str, hp1, hp2, hp3]

/-- C9 witness: the amended statement instantiated at the concrete
out-of-range strings bogus, labels and xyz — in particular, at the labels
value `shuff_par_str` succeeds while `norm_par_str` and `fluor_par_str`
raise the accepted-values error and `op_par_str` hits the unbound
`op_str`. -/
theorem C9_type_str_validation_witness :
    shuff_par_str true "bogus" =
      .err (accepted_values_error "type_str" "bogus" ["print", "file"]) ∧
    shuff_par_str true "labels" = .ok " (shuffled labels)" ∧
    norm_par_str true "labels" =
      .err (accepted_values_error "type_str" "labels" ["print", "file"]) ∧
    fluor_par_str true "labels" =
      .err (accepted_values_error "type_str" "labels" ["print", "file"]) ∧
    fluor_par_str false "labels" =
      .err (accepted_values_error "type_str" "labels" ["print", "file"]) ∧
    op_par_str "diff" "diff" false "labels" = .err (.unboundLocalError "op_str") ∧
    op_par_str "diff" "diff" false "bogus" = .err (.unboundLocalError "op_str") ∧
    op_par_str "xyz" "diff" false "file" =
      .err (accepted_values_error "plot_vals" "xyz" ["diff", "surp", "nosurp"]) := by
  have hb := C9_type_str_validation "bogus" (by decide) (by decide)
  have hl := C9_type_str_validation "labels" (by decide) (by decide)
  refine ⟨?_, ?_, hl.2.2.1, hl.2.2.2.2.1 true, hl.2.2.2.2.1 false,
    (hl.2.2.2.2.2.1 "diff" false).1, (hb.2.2.2.2.2.1 "diff" false).1,
    hb.2.2.2.2.2.2 "xyz" "diff" false "file" (by decide) (by decide) (by decide)⟩
  · rw [hb.1, if_neg (by decide)]
  · rw [hl.1, if_pos rfl]

/-- C10: with `pup_h5_name=None`, `get_check_pupil_data_h5_name` raises a
ValueError if any of sessid, mouseid, date is missing, and otherwise
synthesizes `sessid_mouseid_date_pupil_data_df.h5` with no length checks,
for components of any length; yet the very name synthesized from the
length-1 components 1, 2, 3 is rejected with a RuntimeError when passed
back in validation mode, where the 9/6/8 field-length checks apply. -/
theorem C10_pupil_h5_name_synthesis (s m d : String) :
    get_check_pupil_data_h5_name none (some s) (some m) (some d)
      = .ok (s ++ "_" ++ m ++ "_" ++ d ++ "_pupil_data_df.h5") ∧
    (∀ ms md, get_check_pupil_data_h5_name none none ms md =
      .err (.valueError "If h5_name is None, must provide sessid, mouseid and date.")) ∧
    (∀ md, get_check_pupil_data_h5_name none (some s) none md =
      .err (.valueError "If h5_name is None, must provide sessid, mouseid and date.")) ∧
    get_check_pupil_data_h5_name none (some s) (some m) none =
      .err (.valueError "If h5_name is None, must provide sessid, mouseid and date.") ∧
    get_check_pupil_data_h5_name (some "1_2_3_pupil_data_df.h5") none none none =
      .err (.runtimeError
        "Expected pup_h5_name to have form sessid9_mouseid6_date8_pupil_data_df.h5") := by
  refine ⟨rfl, ?_, ?_, rfl, by decide⟩
  · intro ms md; cases ms <;> cases md <;> rfl
  · intro md; cases md <;> rfl

/-- C8: calling `get_stim_data` or `get_roi_data` with
`win_leng_s > pre + post` raises the ValueError for every possible session
datum (the guard precedes all data retrieval), and with
`win_leng_s = pre + post` and `step_size = 1` both succeed and produce
exactly one window per retrieved sequence. -/
theorem C8_window_length_guard (sess : SessData) (win_leng_s pre post : ℚ) (step_size : ℕ) :
    (win_leng_s > pre + post →
      get_stim_data sess win_leng_s pre post step_size =
        .err (.valueError "Windows cannot be longer than the sequences.") ∧
      get_roi_data sess win_leng_s pre post step_size =
        .err (.valueError "Windows cannot be longer than the sequences.")) ∧
    (win_leng_s = pre + post → step_size = 1 →
      (∀ s ∈ sess.seqs, s.length = Nat.floor (win_leng_s * sess.twop_fps)) →
      ∃ wsa wsb,
        get_stim_data sess win_leng_s pre post step_size = .ok wsa ∧
        get_roi_data sess win_leng_s pre post step_size = .ok wsb ∧
        wsa.length = sess.seqs.length ∧ wsb.length = sess.seqs.length ∧
        (∀ w ∈ wsa, w.length = 1) ∧ (∀ w ∈ wsb, w.length = 1)) := by
  constructor
  · intro h
    constructor <;> simp [get_stim_data, get_roi_data, h]
  · intro heq hstep hsl
    subst heq
    subst hstep
    refine ⟨sess.seqs.map (fun s =>
        window_2d s (Nat.floor ((pre + post) * sess.twop_fps)) 1),
      sess.seqs.map (fun s =>
        window_2d s (Nat.floor (sess.twop_fps * (pre + post))) 1),
      ?_, ?_, by simp, by simp, ?_, ?_⟩
    · simp only [get_stim_data, gt_iff_lt, lt_self_iff_false, if_false]
    · simp only [get_roi_data, gt_iff_lt, lt_self_iff_false, if_false]
    · intro w hw
      obtain ⟨s, hs, rfl⟩ := List.mem_map.1 hw
      simp [window_2d, n_windows, hsl s hs]
    · intro w hw
      obtain ⟨s, hs, rfl⟩ := List.mem_map.1 hw
      simp [window_2d, n_windows, hsl s hs, mul_comm]

/-- C8 witness: the guard theorem applied to a concrete session with one
3-frame sequence at 30 fps, a window of 0.1 s over a 0-to-0.1 s span. -/
theorem C8_window_length_guard_witness :
    get_stim_data ⟨30, [[1, 2, 3]]⟩ (2 / 10) 0 (1 / 10) 1 =
      .err (.valueError "Windows cannot be longer than the sequences.") ∧
    ∃ wsa wsb,
      get_stim_data ⟨30, [[1, 2, 3]]⟩ (1 / 10) 0 (1 / 10) 1 = .ok wsa ∧
      get_roi_data ⟨30, [[1, 2, 3]]⟩ (1 / 10) 0 (1 / 10) 1 = .ok wsb ∧
      wsa.length = 1 ∧ wsb.length = 1 ∧
      (∀ w ∈ wsa, w.length = 1) ∧ (∀ w ∈ wsb, w.length = 1) := by
  constructor
  · exact ((C8_window_length_guard ⟨30, [[1, 2, 3]]⟩ (2 / 10) 0 (1 / 10) 1).1
      (by norm_num)).1
  · obtain ⟨wsa, wsb, h1, h2, h3, h4, h5, h6⟩ :=
      (C8_window_length_guard ⟨30, [[1, 2, 3]]⟩ (1 / 10) 0 (1 / 10) 1).2
        (by norm_num) rfl (by
          intro s hs
          simp only [List.mem_singleton] at hs
          subst hs
          norm_num)
    exact ⟨wsa, wsb, h1, h2, by simpa using h3, by simpa using h4, h5, h6⟩

/-- C4 counterexample: the pre-filter linear velocity is NaN at a position
whose raw rotation reading (after dropping the first element) is the
nonzero value 1e-7 degrees, because the NaN mask uses `np.isclose` to zero
(absolute tolerance 1e-8 radians) rather than an exact zero test.  This
refutes the claim that the velocity is NaN at exactly the zero-reading
positions. -/
theorem C4_counterexample_isclose_not_exact_zero :
    linear_velocity_prefilter (3141592653589793 / 1000000000000000) [0, 1]
      [0, 1 / 10000000] 1 1 false = [none] ∧
    (1 / 10000000 : ℚ) ≠ 0 := by
  constructor
  · norm_num [linear_velocity_prefilter, degrees_to_radians,
      angular_to_linear_velocity, np_isclose_zero]
    intro h
    exfalso
    rw [abs_of_pos (by norm_num)] at h
    norm_num at h
  · norm_num

/-- C4 amended: for timestamp and raw-rotation series of equal length with
strictly increasing timestamps (per-frame durations, not the median, being
used), the output has one fewer element than the inputs (both before and
after the median filter), and the pre-filter linear velocity at position i
is NaN exactly when the converted reading
`radians = raw[i+1] * pi / 180` satisfies `abs radians ≤ 1e-8` (the
np.isclose absolute tolerance) — in particular at every exact-zero raw
reading — and otherwise equals
`radians / (ts[i+1] - ts[i]) * (wheel_radius * subject_position)`. -/
theorem C4_running_velocity_nan_mask (piApprox wr sp : ℚ) (ts raw : List ℚ) (filter_ks : ℕ)
    (hlen : ts.length = raw.length)
    (_hmono : ∀ i, i + 1 < ts.length → ts.getD i 0 < ts.getD (i + 1) 0) :
    (linear_velocity_prefilter piApprox ts raw wr sp false).length = raw.length - 1 ∧
    (calculate_running_velocity piApprox ts raw wr sp false filter_ks).length
      = raw.length - 1 ∧
    (∀ i, i < raw.length - 1 →
      (linear_velocity_prefilter piApprox ts raw wr sp false).getD i none =
        (if |degrees_to_radians piApprox (raw.getD (i + 1) 0)| ≤ 1 / 100000000 then none
         else some (degrees_to_radians piApprox (raw.getD (i + 1) 0) /
           (ts.getD (i + 1) 0 - ts.getD i 0) * (wr * sp)))) ∧
    (∀ i, i < raw.length - 1 → raw.getD (i + 1) 0 = 0 →
      (linear_velocity_prefilter piApprox ts raw wr sp false).getD i none = none) := by
  have hplen : (linear_velocity_prefilter piApprox ts raw wr sp false).length
      = raw.length - 1 := by
    simp [linear_velocity_prefilter, hlen]
  have hidx : ∀ i, i < raw.length - 1 →
      (linear_velocity_prefilter piApprox ts raw wr sp false).getD i none =
        (if |degrees_to_radians piApprox (raw.getD (i + 1) 0)| ≤ 1 / 100000000 then none
         else some (degrees_to_radians piApprox (raw.getD (i + 1) 0) /
           (ts.getD (i + 1) 0 - ts.getD i 0) * (wr * sp))) := by
    intro i hi
    have hb : i < (linear_velocity_prefilter piApprox ts raw wr sp false).length := by
      omega
    rw [List.getD_eq_getElem _ _ hb]
    have h1 : i + 1 < raw.length := by omega
    have h2 : i + 1 < ts.length := by omega
    rw [List.getD_eq_getElem _ _ h1, List.getD_eq_getElem _ _ h2,
      List.getD_eq_getElem _ _ (by omega : i < ts.length)]
    simp only [linear_velocity_prefilter, Bool.false_eq_true, if_false]
    simp only [List.getElem_zipWith, List.getElem_map, List.getElem_drop]
    simp only [np_isclose_zero, decide_eq_true_eq, angular_to_linear_velocity]
    simp only [Nat.add_comm 1 i]
  have hroll : ∀ (ks : ℕ) (xs : List RVal),
      (rolling_median_centered ks xs).length = xs.length := by
    intro ks xs
    have hdef : rolling_median_centered ks xs = (List.range xs.length).map (fun (i : ℕ) =>
        let vals := (List.range ks).filterMap (fun (j : ℕ) =>
          let idx : ℤ := (i : ℤ) + (j : ℤ) - ((ks : ℤ) - 1 - (ks : ℤ) / 2)
          if 0 ≤ idx ∧ idx < (xs.length : ℤ) then xs.getD idx.toNat none else none)
        if (ks + 2) / 2 ≤ vals.length then some (np_median vals) else none) := rfl
    rw [hdef, List.length_map, List.length_range]
  refine ⟨hplen, ?_, hidx, ?_⟩
  · by_cases hk : filter_ks = 0
    · simp [calculate_running_velocity, hk, hplen]
    · rw [calculate_running_velocity, if_pos hk, hroll, hplen]
  · intro i hi hz
    rw [hidx i hi, hz]
    simp [degrees_to_radians]

/-- C4 witness: the amended statement applied to the concrete series
ts = [0, 1, 2], raw = [7, 0, 9] with wheel radius 2 and subject position
one half: the reading 0 at index 1 yields NaN at output position 0 and
the reading 9 yields a non-NaN velocity at output position 1. -/
theorem C4_running_velocity_nan_mask_witness :
    (linear_velocity_prefilter (157 / 50) [0, 1, 2] [7, 0, 9] 2 (1 / 2) false).length = 2 ∧
    (linear_velocity_prefilter (157 / 50) [0, 1, 2] [7, 0, 9] 2 (1 / 2) false).getD 0 none
      = none ∧
    (linear_velocity_prefilter (157 / 50) [0, 1, 2] [7, 0, 9] 2 (1 / 2) false).getD 1 none
      = some (9 * (157 / 50) / 180 / 1 * (2 * (1 / 2))) := by
  have h := C4_running_velocity_nan_mask (157 / 50) 2 (1 / 2) [0, 1, 2] [7, 0, 9] 5
    (by decide) (by
      intro i hi
      simp only [List.length_cons, List.length_nil] at hi
      have h2 : i ≤ 1 := by omega
      interval_cases i <;> norm_num)
  refine ⟨by simpa using h.1, ?_, ?_⟩
  · rw [h.2.2.2 0 (by norm_num) (by norm_num)]
  · rw [h.2.2.1 1 (by norm_num)]
    have hv : degrees_to_radians (157 / 50) ([7, 0, 9].getD 2 0) = 157 / 1000 := by
      norm_num [degrees_to_radians]
    rw [hv, if_neg (by rw [abs_of_pos (by norm_num)]; norm_num)]
    norm_num

/-- C5: on a series with a single isolated run of 3 consecutive samples
whose first differences exceed thr = 5, surrounded on both sides by 11
stable samples, `_diam_no_blink` does not return the series with the run
replaced by NaN: its first loop iteration finds no flagged-index gap
above 10, takes the loop-terminating branch, and executes
`i = right_i + 1` with `right_i` never assigned, raising
UnboundLocalError.  The unchanged-series half of the claim does hold, as
shown on a concrete series with no difference above thr. -/
theorem C5_diam_no_blink_code_bug :
    diam_no_blink
      [0, 0, 0, 0, 0, 0, 0, 0, 0, 0, 0, 10, 20, 30,
       30, 30, 30, 30, 30, 30, 30, 30, 30, 30, 30] 5
      = .err (.unboundLocalError "right_i") ∧
    diam_no_blink [0, 1, 2, 3] 5 = .ok ([0, 1, 2, 3].map some) := by
  constructor
  · have hthr : diam_thr_of
        [0, 0, 0, 0, 0, 0, 0, 0, 0, 0, 0, 10, 20, 30,
         30, 30, 30, 30, 30, 30, 30, 30, 30, 30, 30] 5 = [11, 12, 13] := by
      norm_num [diam_thr_of, np_diff, List.enum, List.enumFrom, List.filter]
    simp only [diam_no_blink, hthr]
    decide
  · have hthr : diam_thr_of [0, 1, 2, 3] 5 = [] := by
      norm_num [diam_thr_of, np_diff, List.enum, List.enumFrom, List.filter]
    simp [diam_no_blink, hthr]

/-- C1: for every valid combination of mouse number, session number,
layer (soma or dend), fluorescence type (raw or dff), scale flag,
stimulus configuration (gabors with kappa 4, 16 or both, the brick
parameters then being the none sentinel; or bricks with direction right,
left or both and size 128, 256 or both, kappa then being the none
sentinel), comparison (None, surp, AvB, AvC, BvC or DvE) and shuffle
flag, parsing the directory name produced by `get_analysdir` with
`get_params_from_str` recovers every one of those fields exactly. -/
theorem C1_analysdir_roundtrip (m s : ℕ) (c : Cfg) :
    get_params_from_str (get_analysdir m s c.layer.str c.fluor.str c.scale
      c.stim.stimtype c.stim.dirArg c.stim.sizeArg c.stim.gabkArg c.comp.opt c.shuffle)
      = .ok { mouse_n := m, sess_n := s, stimtype := c.stim.stimtype,
              gabk := c.stim.gabkArg, bri_dir := c.stim.dirArg,
              bri_size := c.stim.sizeArg, layer := c.layer.str,
              fluor := c.fluor.str, scale := c.scale, comp := c.comp.opt,
              shuffle := c.shuffle } := by
  have hform : get_analysdir m s c.layer.str c.fluor.str c.scale c.stim.stimtype
      c.stim.dirArg c.stim.sizeArg c.stim.gabkArg c.comp.opt c.shuffle
      = ('m' :: natToChars m) ++ '_' :: (('s' :: natToChars s) ++ ('_' :: tailBody c)) := rfl
  rw [hform, get_params_header, tail_check c]
  rfl

end OpenScopeCA
